import Mathlib

/-!
Verification of the cyberdaemon library (Go) against its natural-language
specification. The Go source is shallowly embedded: effectful calls
(os.Stat, running a CLI tool, the Windows service manager) are modelled by
passing their outcomes in as explicit inputs, and each controller method
becomes a pure Lean function over those outcomes that returns the Go
function's results (and, where a claim needs it, a trace of the external
actions the method performed, in order).
-/

namespace Cyberdaemon

/-- Status mirrors the Go type `Status string` from common.go. -/
abbrev Status := String

def Unknown : Status := "unknown"

def Running : Status := "running"

def Stopped : Status := "stopped"

def StoppedDead : Status := "stopped_dead"

def Starting : Status := "starting"

def Stopping : Status := "stopping"

def Resuming : Status := "resuming"

def Pausing : Status := "pausing"

def Paused : Status := "paused"

def NotInstalled : Status := "not_installed"

/-- Command mirrors the Go type `Command string` from common.go. -/
abbrev Command := String

def GetStatus : Command := "status"

def Start : Command := "start"

def Stop : Command := "stop"

def Install : Command := "install"

def Uninstall : Command := "uninstall"

/-- StartType mirrors the Go type `StartType string` from common.go. -/
abbrev StartType := String

def ManualStart : StartType := "manual"

def StartOnLoad : StartType := "start_on_load"

def StartImmediately : StartType := "start_immediately"

/-- Result of `os.Stat`: `none` models a non-nil stat error (the file is
absent or unreadable); `some info` carries `info.IsDir()`. -/
structure FileInfo where
  isDir : Bool
deriving DecidableEq, Repr

/-- Outcome of `runDaemonCli` (daemon_linux.go / internal/osutil):
trimmed combined output, the process exit code, and the wrapped error
(`some` exactly when `exec.Command(...).CombinedOutput` failed). -/
structure CliResult where
  output : String
  exitCode : Int
  err : Option String
deriving DecidableEq, Repr

/-- systemvController.Status from daemon_systemv_linux.go. The stat of
`o.initFilePath` and the `service <id> status` invocation are inputs. -/
def systemvControllerStatus (statRes : Option FileInfo) (cli : CliResult) :
    Status × Option String :=
  match statRes with
  | none => (NotInstalled, none)
  | some initInfo =>
    if initInfo.isDir then (NotInstalled, none)
    else
      if cli.err.isSome then
        if cli.exitCode = 3 then (Stopped, none)
        else if cli.exitCode = 1 then (StoppedDead, none)
        else if cli.exitCode = 0 then (Running, none)
        else (Unknown, none)
      else
        if cli.exitCode = 0 then (Running, none)
        else (Unknown, none)

/-- systemdController.Status from daemon_systemd_linux.go. The stat of
`o.unitFilePath` and the `systemctl [--user] status <id>` invocation are
inputs (the argument list the Go code builds does not affect the result,
only the invocation outcome does). -/
def systemdControllerStatus (statRes : Option FileInfo) (cli : CliResult) :
    Status × Option String :=
  match statRes with
  | none => (NotInstalled, none)
  | some initInfo =>
    if initInfo.isDir then (NotInstalled, none)
    else
      if cli.err.isSome then
        if cli.exitCode = 3 then (Stopped, none)
        else if cli.exitCode = 1 then (StoppedDead, none)
        else if cli.exitCode = 0 then (Running, none)
        else (Unknown, none)
      else
        if cli.exitCode = 0 then (Running, none)
        else (Unknown, none)

/-- The literal service-manager error text matched by the Windows
controller (daemon_windows.go). -/
def notInstalledErr : String :=
  "The specified service does not exist as an installed service."

def svcStopped : Nat := 1

def svcStartPending : Nat := 2

def svcStopPending : Nat := 3

def svcRunning : Nat := 4

def svcContinuePending : Nat := 5

def svcPausePending : Nat := 6

def svcPaused : Nat := 7

/-- windowsController.Status from daemon_windows.go. `connectErr` is the
outcome of `mgr.Connect`, `openServiceRes` of `m.OpenService` (the error
carries the manager's message text), and `queryRes` of `s.Query` (the
native service state number). -/
def windowsControllerStatus (connectErr : Option String)
    (openServiceRes : Except String Unit) (queryRes : Except String Nat) :
    Status × Option String :=
  match connectErr with
  | some e => ("", some e)
  | none =>
    match openServiceRes with
    | Except.error e =>
      if e = notInstalledErr then (NotInstalled, none) else ("", some e)
    | Except.ok _ =>
      match queryRes with
      | Except.error e => ("", some e)
      | Except.ok state =>
        if state = svcStopPending then (Stopping, none)
        else if state = svcStopped then (Stopped, none)
        else if state = svcStartPending then (Starting, none)
        else if state = svcRunning then (Running, none)
        else if state = svcContinuePending then (Resuming, none)
        else if state = svcPausePending then (Pausing, none)
        else if state = svcPaused then (Paused, none)
        else (Unknown, none)

/-- The status values reported by the external launchctlutil library
(`other` stands for any unmapped value). -/
inductive LaunchctlStatus
  | notInstalled
  | notRunning
  | running
  | other
deriving DecidableEq, Repr

/-- darwinController.Status from control/controller_darwin.go. The outcome
of `launchctlutil.CurrentStatus` (an external library call, which is how
plist absence is reported on macOS) is the input. -/
def darwinControllerStatus (currentStatus : Except String LaunchctlStatus) :
    Status × Option String :=
  match currentStatus with
  | Except.error e => ("", some e)
  | Except.ok LaunchctlStatus.notInstalled => (NotInstalled, none)
  | Except.ok LaunchctlStatus.notRunning => (Stopped, none)
  | Except.ok LaunchctlStatus.running => (Running, none)
  | Except.ok LaunchctlStatus.other => (Unknown, none)

/-- C1: for every platform Controller (System V, systemd, launchd,
Windows), when the daemon's identity artifact is absent (stat of the
init.d script or unit file fails; the Windows service manager reports the
not-installed error text when the service is opened; launchctlutil reports
NotInstalled), Status() returns NotInstalled with a nil error, and no
native-tool query outcome influences the result (the CLI result and the
Windows service query are universally quantified). -/
theorem status_notInstalled_when_artifact_absent :
    (∀ cli : CliResult, systemvControllerStatus none cli = (NotInstalled, none)) ∧
    (∀ cli : CliResult, systemdControllerStatus none cli = (NotInstalled, none)) ∧
    (∀ queryRes : Except String Nat,
      windowsControllerStatus none (Except.error notInstalledErr) queryRes =
        (NotInstalled, none)) ∧
    darwinControllerStatus (Except.ok LaunchctlStatus.notInstalled) =
      (NotInstalled, none) := by
  refine ⟨fun cli => rfl, fun cli => rfl, fun queryRes => ?_, rfl⟩
  simp [windowsControllerStatus]

/-- C10: for the System V and systemd Controllers, a directory sitting at
the identity artifact's path is treated the same as no installation:
Status() returns NotInstalled with a nil error, whatever the native status
tool would have reported. -/
theorem status_notInstalled_when_artifact_is_directory :
    (∀ cli : CliResult,
      systemvControllerStatus (some (FileInfo.mk true)) cli = (NotInstalled, none)) ∧
    (∀ cli : CliResult,
      systemdControllerStatus (some (FileInfo.mk true)) cli = (NotInstalled, none)) := by
  exact ⟨fun cli => rfl, fun cli => rfl⟩

/-- C4: for the System V and systemd status queries (artifact present as a
regular file), a failing native invocation with exit code 3 yields
(Stopped, nil) and with exit code 1 yields (StoppedDead, nil) — both are
successful determinations, not errors; exit code 0 yields (Running, nil);
any other outcome yields (Unknown, nil). -/
theorem status_exit_code_mapping (out e : String) (code : Int) :
    (systemvControllerStatus (some (FileInfo.mk false)) (CliResult.mk out 3 (some e)) =
      (Stopped, none)) ∧
    (systemvControllerStatus (some (FileInfo.mk false)) (CliResult.mk out 1 (some e)) =
      (StoppedDead, none)) ∧
    (systemdControllerStatus (some (FileInfo.mk false)) (CliResult.mk out 3 (some e)) =
      (Stopped, none)) ∧
    (systemdControllerStatus (some (FileInfo.mk false)) (CliResult.mk out 1 (some e)) =
      (StoppedDead, none)) ∧
    (systemvControllerStatus (some (FileInfo.mk false)) (CliResult.mk out 0 none) =
      (Running, none)) ∧
    (systemdControllerStatus (some (FileInfo.mk false)) (CliResult.mk out 0 none) =
      (Running, none)) ∧
    (code ≠ 0 → code ≠ 1 → code ≠ 3 →
      systemvControllerStatus (some (FileInfo.mk false)) (CliResult.mk out code (some e)) =
        (Unknown, none)) ∧
    (code ≠ 0 → code ≠ 1 → code ≠ 3 →
      systemdControllerStatus (some (FileInfo.mk false)) (CliResult.mk out code (some e)) =
        (Unknown, none)) ∧
    (code ≠ 0 →
      systemvControllerStatus (some (FileInfo.mk false)) (CliResult.mk out code none) =
        (Unknown, none)) ∧
    (code ≠ 0 →
      systemdControllerStatus (some (FileInfo.mk false)) (CliResult.mk out code none) =
        (Unknown, none)) := by
  refine ⟨rfl, rfl, rfl, rfl, rfl, rfl, ?_, ?_, ?_, ?_⟩ <;>
    intros <;> simp_all [systemvControllerStatus, systemdControllerStatus]

/-- Witness for C4 at concrete inputs: exit code 2 with a failed
invocation maps to Unknown, and the documented codes behave as claimed. -/
theorem status_exit_code_mapping_witness :
    systemvControllerStatus (some (FileInfo.mk false))
      (CliResult.mk "out" 2 (some "boom")) = (Unknown, none) ∧
    systemdControllerStatus (some (FileInfo.mk false))
      (CliResult.mk "out" 3 (some "boom")) = (Stopped, none) := by
  have h := status_exit_code_mapping "out" "boom" 2
  exact ⟨h.2.2.2.2.2.2.1 (by decide) (by decide) (by decide),
    (status_exit_code_mapping "out" "boom" 3).2.2.1⟩

/-- svc.AcceptStop | svc.AcceptShutdown, the accepted-controls mask the
Execute callback advertises while Running (daemon_windows.go). -/
def cmdsAccepted : Nat := 5

/-- The service control requests handled by serviceWrapper.Execute;
`other` stands for any control hitting the default branch. -/
inductive WinCmd
  | interrogate
  | stop
  | shutdown
  | other
deriving DecidableEq, Repr

/-- svc.Status: a service state number plus the accepted-controls mask. -/
structure WinStatus where
  state : Nat
  accepts : Nat
deriving DecidableEq, Repr

/-- svc.ChangeRequest: the control command and the current status the
service manager passes along with it. -/
structure ChangeRequest where
  cmd : WinCmd
  currentStatus : WinStatus
deriving DecidableEq, Repr

/-- Observable events of serviceWrapper.Execute: a status sent on the
`changes` channel, or an invocation of the application's Start or Stop
callback. -/
inductive ExecEvent
  | putStatus (s : WinStatus)
  | callStart
  | callStop
deriving DecidableEq, Repr

/-- The `loop` of serviceWrapper.Execute (daemon_windows.go), consuming
change requests in order. The result is the event trace plus the
callback's return values `(svcSpecificEC bool, exitCode uint32, captured
error)` — `none` when the request list runs out with the loop still
blocked on the channel. -/
def serviceWrapperExecuteLoop (stopErr : Option String) :
    List ChangeRequest → List ExecEvent × Option (Bool × Nat × Option String)
  | [] => ([], none)
  | c :: rest =>
    match c.cmd with
    | WinCmd.interrogate =>
      let r := serviceWrapperExecuteLoop stopErr rest
      (ExecEvent.putStatus c.currentStatus :: r.1, r.2)
    | WinCmd.stop =>
      match stopErr with
      | some e =>
        ([ExecEvent.putStatus (WinStatus.mk svcStopPending 0), ExecEvent.callStop],
          some (true, 2, some e))
      | none =>
        ([ExecEvent.putStatus (WinStatus.mk svcStopPending 0), ExecEvent.callStop],
          some (false, 0, none))
    | WinCmd.shutdown =>
      match stopErr with
      | some e =>
        ([ExecEvent.putStatus (WinStatus.mk svcStopPending 0), ExecEvent.callStop],
          some (true, 2, some e))
      | none =>
        ([ExecEvent.putStatus (WinStatus.mk svcStopPending 0), ExecEvent.callStop],
          some (false, 0, none))
    | WinCmd.other => serviceWrapperExecuteLoop stopErr rest

/-- serviceWrapper.Execute from daemon_windows.go. `startErr` and
`stopErr` are the outcomes of the application's Start/Stop callbacks and
`reqs` the sequence of change requests received on `r`. -/
def serviceWrapperExecute (startErr stopErr : Option String)
    (reqs : List ChangeRequest) :
    List ExecEvent × Option (Bool × Nat × Option String) :=
  let pre := [ExecEvent.putStatus (WinStatus.mk svcStartPending 0), ExecEvent.callStart]
  match startErr with
  | some e => (pre, some (true, 1, some e))
  | none =>
    let r := serviceWrapperExecuteLoop stopErr reqs
    (pre ++ ExecEvent.putStatus (WinStatus.mk svcRunning cmdsAccepted) :: r.1, r.2)

/-- True when the event is not a transition to the Running state. -/
def notRunningEvent : ExecEvent → Bool
  | ExecEvent.putStatus s => decide (s.state ≠ svcRunning)
  | ExecEvent.callStart => true
  | ExecEvent.callStop => true

theorem serviceWrapperExecuteLoop_stopPending_before_callStop
    (stopErr : Option String) :
    ∀ reqs : List ChangeRequest,
      ExecEvent.callStop ∈ (serviceWrapperExecuteLoop stopErr reqs).1 →
      ∃ l₁ l₂, (serviceWrapperExecuteLoop stopErr reqs).1 =
        l₁ ++ ExecEvent.putStatus (WinStatus.mk svcStopPending 0) ::
          ExecEvent.callStop :: l₂ := by
  intro reqs
  induction reqs with
  | nil => intro h; simp [serviceWrapperExecuteLoop] at h
  | cons c rest ih =>
    intro h
    match hc : c.cmd with
    | WinCmd.interrogate =>
      simp only [serviceWrapperExecuteLoop, hc, List.mem_cons] at h
      simp only [serviceWrapperExecuteLoop, hc]
      rcases h with h | h
      · exact absurd h (by simp)
      · obtain ⟨l₁, l₂, hl⟩ := ih h
        exact ⟨ExecEvent.putStatus c.currentStatus :: l₁, l₂, by simp [hl]⟩
    | WinCmd.stop =>
      cases stopErr <;>
        exact ⟨[], [], by simp [serviceWrapperExecuteLoop, hc]⟩
    | WinCmd.shutdown =>
      cases stopErr <;>
        exact ⟨[], [], by simp [serviceWrapperExecuteLoop, hc]⟩
    | WinCmd.other =>
      simp only [serviceWrapperExecuteLoop, hc] at h ⊢
      exact ih h

/-- C2: the Windows Execute callback state machine. (1) If the
application's Start() fails, the emitted trace never contains a transition
to Running. (2) Whenever Stop() is invoked, the status StopPending was
sent immediately before the invocation (for any Start outcome, Stop
outcome, and request sequence). (3) An Interrogate request echoes the
current status it carried back unchanged, leaving the rest of the loop
untouched. -/
theorem windows_execute_state_machine :
    (∀ (e : String) (stopErr : Option String) (reqs : List ChangeRequest),
      ((serviceWrapperExecute (some e) stopErr reqs).1.all notRunningEvent) = true) ∧
    (∀ (startErr stopErr : Option String) (reqs : List ChangeRequest),
      ExecEvent.callStop ∈ (serviceWrapperExecute startErr stopErr reqs).1 →
      ∃ l₁ l₂, (serviceWrapperExecute startErr stopErr reqs).1 =
        l₁ ++ ExecEvent.putStatus (WinStatus.mk svcStopPending 0) ::
          ExecEvent.callStop :: l₂) ∧
    (∀ (stopErr : Option String) (s : WinStatus) (rest : List ChangeRequest),
      serviceWrapperExecuteLoop stopErr (ChangeRequest.mk WinCmd.interrogate s :: rest) =
        (ExecEvent.putStatus s :: (serviceWrapperExecuteLoop stopErr rest).1,
          (serviceWrapperExecuteLoop stopErr rest).2)) := by
  refine ⟨?_, ?_, ?_⟩
  · intro e stopErr reqs
    simp [serviceWrapperExecute, notRunningEvent, svcStartPending, svcRunning]
  · intro startErr stopErr reqs h
    cases startErr with
    | some e => simp [serviceWrapperExecute] at h
    | none =>
      simp only [serviceWrapperExecute, List.cons_append, List.nil_append,
        List.mem_cons] at h
      rcases h with h | h | h | h
      · exact absurd h (by simp)
      · exact absurd h (by simp)
      · exact absurd h (by simp)
      · obtain ⟨l₁, l₂, hl⟩ :=
          serviceWrapperExecuteLoop_stopPending_before_callStop stopErr reqs h
        refine ⟨ExecEvent.putStatus (WinStatus.mk svcStartPending 0) ::
          ExecEvent.callStart ::
          ExecEvent.putStatus (WinStatus.mk svcRunning cmdsAccepted) :: l₁, l₂, ?_⟩
        simp [serviceWrapperExecute, hl]
  · intro stopErr s rest
    rfl

/-- Witness for C2 at concrete inputs: a failed Start emits no Running
transition; a Stop request yields the StopPending-then-Stop() pattern; an
Interrogate echoes its status. -/
theorem windows_execute_state_machine_witness :
    ((serviceWrapperExecute (some "boom") none
        [ChangeRequest.mk WinCmd.stop (WinStatus.mk svcRunning 5)]).1.all
      notRunningEvent) = true ∧
    (∃ l₁ l₂, (serviceWrapperExecute none none
        [ChangeRequest.mk WinCmd.stop (WinStatus.mk svcRunning 5)]).1 =
      l₁ ++ ExecEvent.putStatus (WinStatus.mk svcStopPending 0) ::
        ExecEvent.callStop :: l₂) ∧
    serviceWrapperExecuteLoop none
        (ChangeRequest.mk WinCmd.interrogate (WinStatus.mk svcRunning 5) :: []) =
      (ExecEvent.putStatus (WinStatus.mk svcRunning 5) ::
        (serviceWrapperExecuteLoop none []).1,
        (serviceWrapperExecuteLoop none []).2) := by
  refine ⟨windows_execute_state_machine.1 "boom" none _, ?_, ?_⟩
  · exact windows_execute_state_machine.2.1 none none
      [ChangeRequest.mk WinCmd.stop (WinStatus.mk svcRunning 5)] (by decide)
  · exact windows_execute_state_machine.2.2 none (WinStatus.mk svcRunning 5) []

/-- strings.HasPrefix, on the underlying character lists. -/
def strHasPrefix (s pre : String) : Bool :=
  pre.toList.isPrefixOf s.toList

def splitCharAux (sep : Char) : List Char → List Char → List String
  | [], acc => [String.mk acc.reverse]
  | x :: xs, acc =>
    if x = sep then String.mk acc.reverse :: splitCharAux sep xs []
    else splitCharAux sep xs (x :: acc)

/-- strings.Split with a one-character separator (daemon_systemv_linux.go
splits the cmdline file contents on the NUL byte). -/
def splitOnChar (sep : Char) (s : String) : List String :=
  splitCharAux sep s.toList []

def nullChar : Char := Char.ofNat 0

def initdScriptDirStr : String := "/etc/init.d/"

/-- One process of the /proc model: the parent pid parsed from
`/proc/<pid>/stat` and the raw contents of `/proc/<pid>/cmdline`
(NUL-separated). `none` for a pid models both files being unreadable. -/
structure ProcEntry where
  ppid : Nat
  cmdline : String
deriving DecidableEq, Repr

abbrev ProcTree := Nat → Option ProcEntry

/-- The scan inside isPidInitd (daemon_systemv_linux.go): the first of the
first four NUL-separated cmdline fields with the `/etc/init.d/` prefix. -/
def firstInitdArg (cmdline : String) : Option String :=
  ((splitOnChar nullChar cmdline).take 4).find?
    (fun a => strHasPrefix a initdScriptDirStr)

/-- isPidInitd from daemon_systemv_linux.go. -/
def isPidInitd (env : ProcTree) (pid : Nat) : Except String (String × Bool) :=
  match env pid with
  | none => Except.error ("failed to read cmdline for process " ++ toString pid)
  | some entry =>
    match firstInitdArg entry.cmdline with
    | some a => Except.ok (a, true)
    | none => Except.ok ("", false)

/-- manualParentPid from daemon_systemv_linux.go (reads the parent pid out
of the stat file). -/
def manualParentPid (env : ProcTree) (pid : Nat) : Except String Nat :=
  match env pid with
  | none => Except.error ("failed to read stat for process " ++ toString pid)
  | some entry => Except.ok entry.ppid

/-- The `for i := 0; i < 5; i++` loop of isInitdOurParent, with the
remaining iteration count explicit: check the current pid, then (when
iterations remain) step to its parent, stopping on parent pid 0. -/
def isInitdOurParentLoop (env : ProcTree) : Nat → Nat → Except String (String × Bool)
  | _, 0 => Except.ok ("", false)
  | pid, fuel + 1 =>
    match isPidInitd env pid with
    | Except.error e => Except.error e
    | Except.ok (scriptPath, true) => Except.ok (scriptPath, true)
    | Except.ok (_, false) =>
      if fuel = 0 then Except.ok ("", false)
      else
        match manualParentPid env pid with
        | Except.error e => Except.error e
        | Except.ok p =>
          if p = 0 then Except.ok ("", false)
          else isInitdOurParentLoop env p fuel

/-- isInitdOurParent from daemon_systemv_linux.go, starting from the
direct parent pid (`os.Getppid()`) and inspecting at most 5 ancestors. -/
def isInitdOurParent (env : ProcTree) (ppid : Nat) : Except String (String × Bool) :=
  isInitdOurParentLoop env ppid 5

/-- A linear ancestor chain as a ProcTree: process `k+1` (1-based) runs
command line `cmds[k]` and has parent `k+2`, except the last process whose
parent pid is 0 (as for pid 1 in a real /proc). Pids outside the chain
have no entries. -/
def linEnv (cmds : List String) : ProcTree := fun pid =>
  if pid = 0 then none
  else
    match cmds[pid - 1]? with
    | some c => some (ProcEntry.mk (if pid = cmds.length then 0 else pid + 1) c)
    | none => none

/-- True when chain position `k` (0-based) carries no init.d argument. -/
def noInitdAt (cmds : List String) (k : Nat) : Bool :=
  match cmds[k]? with
  | some c => (firstInitdArg c).isNone
  | none => true

theorem linEnv_eq_some {cmds : List String} {p : Nat} {c : String} (hp : 1 ≤ p)
    (hc : cmds[p - 1]? = some c) :
    linEnv cmds p = some (ProcEntry.mk (if p = cmds.length then 0 else p + 1) c) := by
  have hp0 : ¬ p = 0 := by omega
  simp [linEnv, hp0, hc]

theorem noInitdAt_none {cmds : List String} {k : Nat} {c : String}
    (h : noInitdAt cmds k = true) (hc : cmds[k]? = some c) :
    firstInitdArg c = none := by
  simpa [noInitdAt, hc, Option.isNone_iff_eq_none] using h

theorem walkFindsMatch : ∀ (i f p : Nat) (cmds : List String) (ci a : String),
    i < f → 1 ≤ p → cmds[p - 1 + i]? = some ci → firstInitdArg ci = some a →
    (∀ j, j < i → noInitdAt cmds (p - 1 + j) = true) →
    isInitdOurParentLoop (linEnv cmds) p f = Except.ok (a, true) := by
  intro i
  induction i with
  | zero =>
    intro f p cmds ci a hif hp hci ha _
    obtain ⟨f', rfl⟩ : ∃ f', f = f' + 1 := ⟨f - 1, by omega⟩
    have henv := linEnv_eq_some hp (by simpa using hci)
    simp [isInitdOurParentLoop, isPidInitd, henv, ha]
  | succ i ih =>
    intro f p cmds ci a hif hp hci ha hno
    obtain ⟨f', rfl⟩ : ∃ f', f = f' + 1 := ⟨f - 1, by omega⟩
    have hidx : p - 1 + (i + 1) < cmds.length := by
      by_contra hcon
      push_neg at hcon
      rw [List.getElem?_eq_none hcon] at hci
      simp at hci
    have hp1 : p - 1 < cmds.length := by omega
    have hc0 : cmds[p - 1]? = some cmds[p - 1] := List.getElem?_eq_getElem hp1
    have hn0 : firstInitdArg cmds[p - 1] = none :=
      noInitdAt_none (by simpa using hno 0 (by omega)) hc0
    have henv := linEnv_eq_some hp hc0
    have hplen : ¬ p = cmds.length := by omega
    have hf' : ¬ f' = 0 := by omega
    have hci' : cmds[p + 1 - 1 + i]? = some ci := by
      have harith : p - 1 + (i + 1) = p + 1 - 1 + i := by omega
      rw [harith] at hci
      exact hci
    have hrec := ih f' (p + 1) cmds ci a (by omega) (by omega) hci' ha
      (fun j hj => by
        have := hno (j + 1) (by omega)
        have harith : p - 1 + (j + 1) = p + 1 - 1 + j := by omega
        rw [harith] at this
        exact this)
    simp [isInitdOurParentLoop, isPidInitd, henv, hn0, hf', manualParentPid, hplen, hrec]

theorem walkNoMatch : ∀ (f p : Nat) (cmds : List String), 1 ≤ p →
    p ≤ cmds.length →
    (∀ j, j < f → noInitdAt cmds (p - 1 + j) = true) →
    isInitdOurParentLoop (linEnv cmds) p f = Except.ok ("", false) := by
  intro f
  induction f with
  | zero => intro p cmds _ _ _; rfl
  | succ f ih =>
    intro p cmds hp hple hno
    have hp1 : p - 1 < cmds.length := by omega
    have hc0 : cmds[p - 1]? = some cmds[p - 1] := List.getElem?_eq_getElem hp1
    have hn0 : firstInitdArg cmds[p - 1] = none :=
      noInitdAt_none (by simpa using hno 0 (by omega)) hc0
    have henv := linEnv_eq_some hp hc0
    by_cases hf : f = 0
    · subst hf
      simp [isInitdOurParentLoop, isPidInitd, henv, hn0]
    · by_cases hpl : p = cmds.length
      · rw [if_pos hpl] at henv
        simp [isInitdOurParentLoop, isPidInitd, henv, hn0, hf, manualParentPid]
      · have hrec := ih (p + 1) cmds (by omega) (by omega)
          (fun j hj => by
            have := hno (j + 1) (by omega)
            have harith : p - 1 + (j + 1) = p + 1 - 1 + j := by omega
            rw [harith] at this
            exact this)
        simp [isInitdOurParentLoop, isPidInitd, henv, hn0, hf, manualParentPid, hpl, hrec]

/-- C3: the System V parent-chain walk over a linear ancestor chain
(starting at the direct parent, chain position 0). (1) If the nearest
ancestor carrying an `/etc/init.d/` argument among its first four cmdline
fields sits at depth i < 5, the walk returns that argument with
isInitd=true. (2) In particular a grandparent match is found at depth 2
even when the direct parent is a shell. (3) If none of the first five
ancestors carries such an argument, the walk returns isInitd=false with a
nil error — whatever deeper ancestors look like, so at most 5 ancestors
are ever inspected. -/
theorem systemv_parent_chain_walk :
    (∀ (cmds : List String) (i : Nat) (ci a : String),
      i < 5 → cmds[i]? = some ci → firstInitdArg ci = some a →
      (∀ j, j < i → noInitdAt cmds j = true) →
      isInitdOurParent (linEnv cmds) 1 = Except.ok (a, true)) ∧
    (∀ (shell gp a : String) (rest : List String),
      firstInitdArg shell = none → firstInitdArg gp = some a →
      isInitdOurParent (linEnv (shell :: gp :: rest)) 1 = Except.ok (a, true)) ∧
    (∀ cmds : List String, 1 ≤ cmds.length →
      (∀ j, j < 5 → noInitdAt cmds j = true) →
      isInitdOurParent (linEnv cmds) 1 = Except.ok ("", false)) := by
  refine ⟨?_, ?_, ?_⟩
  · intro cmds i ci a hi hci ha hno
    exact walkFindsMatch i 5 1 cmds ci a hi (by omega) (by simpa using hci) ha
      (fun j hj => by simpa using hno j hj)
  · intro shell gp a rest hshell hgp
    exact walkFindsMatch 1 5 1 (shell :: gp :: rest) gp a (by omega) (by omega)
      (by simp) hgp
      (fun j hj => by
        interval_cases j
        simp [noInitdAt, hshell])
  · intro cmds hlen hno
    exact walkNoMatch 5 1 cmds (by omega) hlen (fun j hj => by simpa using hno j hj)

/-- Witness for C3 at concrete inputs: a bash direct parent with an
init.d grandparent is found at depth 2; a chain of three plain shells
yields not-found without error. -/
theorem systemv_parent_chain_walk_witness :
    isInitdOurParent
        (linEnv ["-bash\x00", "/bin/sh\x00/etc/init.d/mydaemon\x00start\x00"]) 1 =
      Except.ok ("/etc/init.d/mydaemon", true) ∧
    isInitdOurParent (linEnv ["-bash\x00", "/bin/sh\x00", "/usr/bin/tmux\x00"]) 1 =
      Except.ok ("", false) := by
  constructor
  · exact systemv_parent_chain_walk.2.1 "-bash\x00"
      "/bin/sh\x00/etc/init.d/mydaemon\x00start\x00" "/etc/init.d/mydaemon" []
      (by decide) (by decide)
  · exact systemv_parent_chain_walk.2.2
      ["-bash\x00", "/bin/sh\x00", "/usr/bin/tmux\x00"] (by decide)
      (fun j hj => by interval_cases j <;> decide)

/-- External steps performed by windowsController.Install, in order. -/
inductive WinInstallAction
  | connect
  | createService
  | startService
  | installEventlogSource
  | deleteService
deriving DecidableEq, Repr

/-- Outcomes of the external calls windowsController.Install makes:
mgr.Connect, os.Executable (the password-provider steps of the control
variant likewise happen before creation), m.CreateService, s.Start, and
eventlog.InstallAsEventCreate. -/
structure WinInstallEnv where
  connectErr : Option String
  exePathErr : Option String
  createErr : Option String
  startErr : Option String
  eventlogErr : Option String
deriving DecidableEq, Repr

/-- windowsController.Install from daemon_windows.go (the
control/controller_windows.go variant has the same post-creation shape):
returns the attempted external actions in order plus the error result.
`s.Delete()` is invoked before returning whenever the immediate start or
the Event Log source registration fails. -/
def windowsControllerInstall (startType : StartType) (env : WinInstallEnv) :
    List WinInstallAction × Option String :=
  match env.connectErr with
  | some e => ([WinInstallAction.connect], some e)
  | none =>
    match env.exePathErr with
    | some e => ([WinInstallAction.connect], some e)
    | none =>
      match env.createErr with
      | some e => ([WinInstallAction.connect, WinInstallAction.createService], some e)
      | none =>
        if startType = StartImmediately then
          match env.startErr with
          | some e =>
            ([WinInstallAction.connect, WinInstallAction.createService,
              WinInstallAction.startService, WinInstallAction.deleteService], some e)
          | none =>
            match env.eventlogErr with
            | some e =>
              ([WinInstallAction.connect, WinInstallAction.createService,
                WinInstallAction.startService, WinInstallAction.installEventlogSource,
                WinInstallAction.deleteService], some e)
            | none =>
              ([WinInstallAction.connect, WinInstallAction.createService,
                WinInstallAction.startService, WinInstallAction.installEventlogSource],
                none)
        else
          match env.eventlogErr with
          | some e =>
            ([WinInstallAction.connect, WinInstallAction.createService,
              WinInstallAction.installEventlogSource, WinInstallAction.deleteService],
              some e)
          | none =>
            ([WinInstallAction.connect, WinInstallAction.createService,
              WinInstallAction.installEventlogSource], none)

/-- C5: in the Windows Install, any failure occurring after the service
was successfully created (the immediate-start attempt under
StartImmediately, or the Event Log source registration) ends with the
just-created service deleted: whenever Install returns an error although
connect, executable lookup and CreateService all succeeded, the final
external action before returning is deleteService. -/
theorem windows_install_deletes_service_on_late_failure
    (startType : StartType) (env : WinInstallEnv)
    (hconn : env.connectErr = none) (hexe : env.exePathErr = none)
    (hcreate : env.createErr = none) (e : String)
    (herr : (windowsControllerInstall startType env).2 = some e) :
    (windowsControllerInstall startType env).1.getLast? =
      some WinInstallAction.deleteService := by
  rcases env with ⟨c, x, cr, st, ev⟩
  simp only at hconn hexe hcreate
  subst hconn hexe hcreate
  by_cases hst : startType = StartImmediately <;>
    cases st <;> cases ev <;>
      simp_all [windowsControllerInstall]

/-- Witness for C5 at a concrete input: Event Log registration fails after
a successful creation without immediate start, so the trace ends with
deleteService. -/
theorem windows_install_deletes_service_on_late_failure_witness :
    (windowsControllerInstall StartOnLoad
        (WinInstallEnv.mk none none none none (some "eventlog boom"))).1.getLast? =
      some WinInstallAction.deleteService :=
  windows_install_deletes_service_on_late_failure StartOnLoad
    (WinInstallEnv.mk none none none none (some "eventlog boom"))
    rfl rfl rfl "eventlog boom" rfl

/-- External steps performed by systemvController.Install, in order. -/
inductive SysvAction
  | writeScript
  | startDaemon
  | chkconfigOn
  | updatercdDefaults
  | chkconfigOff
  | updatercdDisable
deriving DecidableEq, Repr

/-- Outcomes of the external calls systemvController.Install makes:
ioutil.WriteFile, `service <id> start` (via o.Start), the enable tool
(`chkconfig on` / `update-rc.d defaults`) and the disable tool
(`chkconfig off` / `update-rc.d disable`). -/
structure SysvInstallEnv where
  writeErr : Option String
  startErr : Option String
  enableErr : Option String
  disableErr : Option String
deriving DecidableEq, Repr

/-- systemvController.Install from daemon_systemv_linux.go (the
control/controller_darwin.go System V variant is identical up to the
osutil helpers): write the init.d script, then switch on the start type,
with StartImmediately starting the daemon and falling through to the
StartOnLoad enable step, and ManualStart explicitly disabling auto-start
(Red Hat family uses chkconfig, others update-rc.d). -/
def systemvControllerInstall (startType : StartType) (isRedHat : Bool)
    (env : SysvInstallEnv) : List SysvAction × Option String :=
  match env.writeErr with
  | some e => ([SysvAction.writeScript],
      some ("failed to write init.d script file - " ++ e))
  | none =>
    if startType = StartImmediately then
      match env.startErr with
      | some e => ([SysvAction.writeScript, SysvAction.startDaemon], some e)
      | none =>
        ([SysvAction.writeScript, SysvAction.startDaemon,
          if isRedHat then SysvAction.chkconfigOn else SysvAction.updatercdDefaults],
          env.enableErr)
    else if startType = StartOnLoad then
      ([SysvAction.writeScript,
        if isRedHat then SysvAction.chkconfigOn else SysvAction.updatercdDefaults],
        env.enableErr)
    else if startType = ManualStart then
      ([SysvAction.writeScript,
        if isRedHat then SysvAction.chkconfigOff else SysvAction.updatercdDisable],
        env.disableErr)
    else
      ([SysvAction.writeScript], none)

/-- C6: System V Install start-type handling. With ManualStart (and the
script write succeeding) the disable-auto-start tool — chkconfig off on
Red Hat family, update-rc.d disable otherwise — is invoked exactly once
and the start tool is never invoked (the latter holds for every outcome).
With StartImmediately (write and start succeeding) the trace is exactly
write, then Start(), then one invocation of the enable-auto-start tool, so
Start() precedes enabling auto-start. -/
theorem systemv_install_start_type_handling (isRedHat : Bool)
    (env : SysvInstallEnv) (hw : env.writeErr = none) (hs : env.startErr = none) :
    ((systemvControllerInstall ManualStart isRedHat env).1 =
      [SysvAction.writeScript,
        if isRedHat then SysvAction.chkconfigOff else SysvAction.updatercdDisable]) ∧
    (∀ env2 : SysvInstallEnv,
      SysvAction.startDaemon ∉ (systemvControllerInstall ManualStart isRedHat env2).1) ∧
    ((systemvControllerInstall StartImmediately isRedHat env).1 =
      [SysvAction.writeScript, SysvAction.startDaemon,
        if isRedHat then SysvAction.chkconfigOn else SysvAction.updatercdDefaults]) := by
  refine ⟨?_, ?_, ?_⟩
  · rcases env with ⟨w, s, en, di⟩
    simp only at hw
    subst hw
    simp [systemvControllerInstall, ManualStart, StartImmediately, StartOnLoad]
  · intro env2
    rcases env2 with ⟨w, s, en, di⟩
    cases w <;>
      cases isRedHat <;>
        simp [systemvControllerInstall, ManualStart, StartImmediately, StartOnLoad]
  · rcases env with ⟨w, s, en, di⟩
    simp only at hw hs
    subst hw hs
    simp [systemvControllerInstall, StartImmediately]

/-- Witness for C6 at a concrete input (Debian family, all tool calls
succeeding): ManualStart runs update-rc.d disable once and never Start;
StartImmediately starts before running update-rc.d defaults once. -/
theorem systemv_install_start_type_handling_witness :
    ((systemvControllerInstall ManualStart false
        (SysvInstallEnv.mk none none none none)).1 =
      [SysvAction.writeScript, SysvAction.updatercdDisable]) ∧
    (SysvAction.startDaemon ∉ (systemvControllerInstall ManualStart false
        (SysvInstallEnv.mk none (some "x") none none)).1) ∧
    ((systemvControllerInstall StartImmediately false
        (SysvInstallEnv.mk none none none none)).1 =
      [SysvAction.writeScript, SysvAction.startDaemon, SysvAction.updatercdDefaults]) := by
  have h := systemv_install_start_type_handling false
    (SysvInstallEnv.mk none none none none) rfl rfl
  exact ⟨by simpa using h.1, h.2.1 (SysvInstallEnv.mk none (some "x") none none),
    by simpa using h.2.2⟩

/-- strings.TrimPrefix. -/
def trimPrefixStr (s pre : String) : String :=
  if strHasPrefix s pre then String.mk (s.toList.drop pre.toList.length) else s

/-- strings.Trim with an explicit cutset: removes leading and trailing
characters belonging to the cutset. -/
def trimCutset (s : String) (cutset : List Char) : String :=
  String.mk
    (((s.toList.dropWhile (fun c => cutset.contains c)).reverse.dropWhile
        (fun c => cutset.contains c)).reverse)

def singleQuoteChar : Char := Char.ofNat 39

/-- The cutset of the Go call strings.Trim(..., "\"'"). -/
def quoteCutset : List Char := ['"', singleQuoteChar]

def pidFilePathVar : String := "PID_FILE_PATH"

def singleQuote : String := String.singleton singleQuoteChar

/-- pidFilePathFromInitdScript from daemon_systemv_linux.go, over the
scanned lines of the script: the first line starting with
`PID_FILE_PATH=` yields the remainder with surrounding quote characters
trimmed; otherwise the parse fails. -/
def pidFilePathFromInitdScript (scriptLines : List String) : Except String String :=
  match scriptLines.find? (fun line => strHasPrefix line (pidFilePathVar ++ "=")) with
  | some line =>
    Except.ok (trimCutset (trimPrefixStr line (pidFilePathVar ++ "=")) quoteCutset)
  | none =>
    Except.error ("failed to find pid file path (" ++ singleQuote ++
      pidFilePathVar ++ "=" ++ singleQuote ++ ") in init.d script")

/-- defaultPidFilePath from daemon_systemv_linux.go. -/
def defaultPidFilePath (serviceName : String) : String :=
  "/var/run/" ++ serviceName ++ ".pid"

/-- Go path.Base: trailing slashes removed, then everything after the last
slash; "." for the empty path, "/" when only slashes remain. -/
def pathBase (p : String) : String :=
  if p = "" then "."
  else
    let stripped := (p.toList.reverse.dropWhile (fun c => c = '/')).reverse
    if stripped = [] then "/"
    else String.mk (stripped.reverse.takeWhile (fun c => c != '/')).reverse

/-- The PID-file handoff path choice of systemvDaemonizer.RunUntilExit
(daemon_systemv_linux.go): the path parsed from the init.d script, or the
default path keyed by the script basename when parsing fails. -/
def resolvePidFilePath (scriptPath : String) (scriptLines : List String) : String :=
  match pidFilePathFromInitdScript scriptLines with
  | Except.ok p => p
  | Except.error _ => defaultPidFilePath (pathBase scriptPath)

theorem toList_append (a b : String) : (a ++ b).toList = a.toList ++ b.toList := by
  cases a
  cases b
  rfl

theorem trimPrefixStr_append (pre val : String) :
    trimPrefixStr (pre ++ val) pre = val := by
  have hcat : (pre ++ val).toList = pre.toList ++ val.toList := toList_append pre val
  have hpref : strHasPrefix (pre ++ val) pre = true := by
    simp [strHasPrefix, hcat, List.isPrefixOf_iff_prefix]
  rw [trimPrefixStr, if_pos hpref, hcat, List.drop_left]
  cases val
  rfl

theorem find?_no_match_append {α : Type} {p : α → Bool} :
    ∀ (l₁ : List α) (x : α) (l₂ : List α), (∀ y ∈ l₁, p y = false) →
      p x = true → (l₁ ++ x :: l₂).find? p = some x := by
  intro l₁
  induction l₁ with
  | nil => intro x l₂ _ hx; simp [List.find?_cons, hx]
  | cons y ys ih =>
    intro x l₂ hno hx
    have hy : p y = false := hno y (List.mem_cons_self y ys)
    simp only [List.cons_append, List.find?_cons, hy]
    exact ih x l₂ (fun z hz => hno z (List.mem_cons_of_mem y hz)) hx

/-- C7: the System V Daemonizer PID-file handoff path. (1) When some line
of the init.d script is the first to start with `PID_FILE_PATH=`, the
parse returns the remainder of that line with surrounding quote
characters stripped. (2) When no line carries such an assignment, the
resolved path falls back to `/var/run/<script-basename>.pid`. -/
theorem systemv_pid_file_path_resolution :
    (∀ (pre post : List String) (val : String),
      (∀ l ∈ pre, strHasPrefix l (pidFilePathVar ++ "=") = false) →
      pidFilePathFromInitdScript (pre ++ ((pidFilePathVar ++ "=") ++ val) :: post) =
        Except.ok (trimCutset val quoteCutset)) ∧
    (∀ (scriptPath : String) (scriptLines : List String),
      (∀ l ∈ scriptLines, strHasPrefix l (pidFilePathVar ++ "=") = false) →
      resolvePidFilePath scriptPath scriptLines =
        "/var/run/" ++ pathBase scriptPath ++ ".pid") := by
  constructor
  · intro pre post val hpre
    have hmatch : strHasPrefix ((pidFilePathVar ++ "=") ++ val) (pidFilePathVar ++ "=") =
        true := by
      have hcat := toList_append (pidFilePathVar ++ "=") val
      simp [strHasPrefix, hcat, List.isPrefixOf_iff_prefix]
    rw [pidFilePathFromInitdScript, find?_no_match_append pre _ post hpre hmatch]
    show Except.ok (trimCutset
      (trimPrefixStr ((pidFilePathVar ++ "=") ++ val) (pidFilePathVar ++ "=")) quoteCutset) = _
    rw [trimPrefixStr_append]
  · intro scriptPath scriptLines hno
    have hfind : scriptLines.find?
        (fun line => strHasPrefix line (pidFilePathVar ++ "=")) = none := by
      rw [List.find?_eq_none]
      intro x hx
      simp [hno x hx]
    rw [resolvePidFilePath, pidFilePathFromInitdScript, hfind]
    rfl

/-- Witness for C7 at concrete inputs: a quoted assignment halfway down
the script parses with the quotes stripped, and a script with no
assignment falls back to the basename-keyed default path. -/
theorem systemv_pid_file_path_resolution_witness :
    pidFilePathFromInitdScript
        ["#!/bin/bash", "IS_REDHAT=true",
          "PID_FILE_PATH=\"/var/run/mydaemon.pid\"", "start()"] =
      Except.ok "/var/run/mydaemon.pid" ∧
    resolvePidFilePath "/etc/init.d/mydaemon" ["#!/bin/bash", "start()"] =
      "/var/run/mydaemon.pid" := by
  constructor
  · have h := systemv_pid_file_path_resolution.1 ["#!/bin/bash", "IS_REDHAT=true"]
      ["start()"] "\"/var/run/mydaemon.pid\"" (by decide)
    have harg : (pidFilePathVar ++ "=") ++ "\"/var/run/mydaemon.pid\"" =
        "PID_FILE_PATH=\"/var/run/mydaemon.pid\"" := by decide
    have hval : trimCutset "\"/var/run/mydaemon.pid\"" quoteCutset =
        "/var/run/mydaemon.pid" := by decide
    rw [harg, hval] at h
    simpa using h
  · have h := systemv_pid_file_path_resolution.2 "/etc/init.d/mydaemon"
      ["#!/bin/bash", "start()"] (by decide)
    have hbase : pathBase "/etc/init.d/mydaemon" = "mydaemon" := by decide
    rw [hbase] at h
    simpa using h

/-- strings.NewReplacer(...).Replace: scan left to right; at each position
the first pair whose (non-empty) pattern matches is substituted and the
scan resumes after the consumed pattern. Fuel is the remaining input
length, which suffices because every step consumes at least one
character. -/
def replaceAllAux (pairs : List (String × String)) : Nat → List Char → List Char
  | 0, cs => cs
  | _ + 1, [] => []
  | fuel + 1, c :: cs =>
    match pairs.find? (fun pr =>
        decide (0 < pr.1.toList.length) && pr.1.toList.isPrefixOf (c :: cs)) with
    | some pr => pr.2.toList ++ replaceAllAux pairs fuel ((c :: cs).drop pr.1.toList.length)
    | none => c :: replaceAllAux pairs fuel cs

def replaceAll (pairs : List (String × String)) (s : String) : String :=
  String.mk (replaceAllAux pairs s.toList.length s.toList)

def placeholderDelim : String := "^"

def serviceNamePlaceholder : String := placeholderDelim ++ "NAME" ++ placeholderDelim

def shortDescriptionPlaceholder : String :=
  placeholderDelim ++ "SHORT_DESCRIPTION" ++ placeholderDelim

def descriptionPlaceholder : String :=
  placeholderDelim ++ "DESCRIPTION" ++ placeholderDelim

def exePathPlaceholder : String := placeholderDelim ++ "EXE_PATH" ++ placeholderDelim

def argumentsPlaceholder : String := placeholderDelim ++ "ARGUMENTS" ++ placeholderDelim

def logFilePathPlaceholder : String :=
  placeholderDelim ++ "LOG_FILE_PATH" ++ placeholderDelim

def pidFilePathPlaceholder : String :=
  placeholderDelim ++ "PID_FILE_PATH" ++ placeholderDelim

def runAsPlaceholder : String := placeholderDelim ++ "RUN_AS" ++ placeholderDelim

/-- strings.Contains(script, placeholderDelim), with the one-character
delimiter `^`. -/
def containsPlaceholderDelim (s : String) : Bool :=
  s.toList.contains '^'

/-- ControllerConfig from control/common.go, restricted to the fields the
System V constructor reads (UseNativeLogger stands for
LogConfig.UseNativeLogger). -/
structure ControllerConfig where
  DaemonID : String
  Description : String
  ExePath : String
  Arguments : List String
  RunAs : String
  startType : StartType
  UseNativeLogger : Bool
deriving DecidableEq, Repr

/-- ControllerConfig.Validate from control/common.go. -/
def ControllerConfig.Validate (o : ControllerConfig) : Option String :=
  if o.ExePath.toList.length = 0 then
    some "executable path must be provided to controller config"
  else none

def joinStrings (sep : String) : List String → String
  | [] => ""
  | [x] => x
  | x :: y :: xs => x ++ sep ++ joinStrings sep (y :: xs)

/-- ControllerConfig.argumentsAsString from control/common.go. -/
def ControllerConfig.argumentsAsString (o : ControllerConfig) : String :=
  if o.Arguments.length = 0 then "" else joinStrings " " o.Arguments

/-- systemvController from control/controller_darwin.go (System V part). -/
structure SysvController where
  servicePath : String
  daemonID : String
  initContents : String
  initFilePath : String
  startType : StartType
  isRedHat : Bool
  chkconfig : String
  updatercd : String
deriving DecidableEq, Repr

/-- The replacer application of newSystemvController: the placeholder
pairs in source order, applied to the init.d template. -/
def renderInitdScript (template : String) (config : ControllerConfig) : String :=
  let logFilePath := if config.UseNativeLogger
    then "/var/log/" ++ config.DaemonID ++ "/" ++ config.DaemonID ++ ".log"
    else ""
  replaceAll
    [(serviceNamePlaceholder, config.DaemonID),
     (shortDescriptionPlaceholder, config.DaemonID ++ " daemon."),
     (descriptionPlaceholder, config.Description),
     (exePathPlaceholder, config.ExePath),
     (argumentsPlaceholder, config.argumentsAsString),
     (runAsPlaceholder, config.RunAs),
     (logFilePathPlaceholder, logFilePath),
     (pidFilePathPlaceholder, defaultPidFilePath config.DaemonID)] template

/-- newSystemvController from control/controller_darwin.go, parameterized
over the template text and the outcomes of the osutil tool-path lookups:
validate the config, render the script, reject it if any placeholder
delimiter survives, resolve the enable tool, and build the controller. -/
def newSystemvController (template : String) (config : ControllerConfig)
    (chkconfigPath updatercdPath : Except String String)
    (serviceExePath : String) (isRedHat : Bool) : Except String SysvController :=
  match config.Validate with
  | some e => Except.error e
  | none =>
    let script := renderInitdScript template config
    if containsPlaceholderDelim script then
      Except.error "failed to replace all placeholders in daemon init.d script"
    else
      match (if isRedHat then chkconfigPath else updatercdPath) with
      | Except.error e => Except.error e
      | Except.ok toolPath =>
        Except.ok (SysvController.mk serviceExePath config.DaemonID script
          ("/etc/init.d/" ++ config.DaemonID) config.startType isRedHat
          toolPath toolPath)

/-- C8: System V template rendering. (1) Every controller the constructor
accepts carries a rendered init.d script with zero occurrences of the
placeholder delimiter `^`. (2) Omitting the required ExePath field makes
the constructor return an error (for any template), rather than producing
a script. -/
theorem systemv_render_rejects_leftover_placeholders :
    (∀ (template : String) (config : ControllerConfig)
        (ck ud : Except String String) (svc : String) (isRedHat : Bool)
        (ctrl : SysvController),
      newSystemvController template config ck ud svc isRedHat = Except.ok ctrl →
      ctrl.initContents.toList.contains '^' = false) ∧
    (∀ (template : String) (config : ControllerConfig)
        (ck ud : Except String String) (svc : String) (isRedHat : Bool),
      config.ExePath = "" →
      ∃ e, newSystemvController template config ck ud svc isRedHat =
        Except.error e) := by
  constructor
  · intro template config ck ud svc isRedHat ctrl h
    rw [newSystemvController] at h
    split at h
    · exact absurd h (by simp)
    · simp only at h
      split at h
      · exact absurd h (by simp)
      · rename_i hdelim
        split at h
        · exact absurd h (by simp)
        · cases h
          simpa [containsPlaceholderDelim] using hdelim
  · intro template config ck ud svc isRedHat hexe
    have hv : config.Validate =
        some "executable path must be provided to controller config" := by
      simp [ControllerConfig.Validate, hexe]
    exact ⟨"executable path must be provided to controller config",
      by rw [newSystemvController, hv]⟩

/-- Witness for C8 at concrete inputs: a template consisting of the NAME
placeholder renders to the daemon id with no `^` left, and an empty
ExePath is rejected. -/
theorem systemv_render_rejects_leftover_placeholders_witness :
    newSystemvController serviceNamePlaceholder
        (ControllerConfig.mk "mydaemon" "My daemon." "/usr/bin/mydaemon" []
          "" ManualStart false)
        (Except.ok "/sbin/chkconfig") (Except.ok "/usr/sbin/update-rc.d")
        "/sbin/service" false =
      Except.ok (SysvController.mk "/sbin/service" "mydaemon" "mydaemon"
        "/etc/init.d/mydaemon" ManualStart false "/usr/sbin/update-rc.d"
        "/usr/sbin/update-rc.d") ∧
    (SysvController.mk "/sbin/service" "mydaemon" "mydaemon"
        "/etc/init.d/mydaemon" ManualStart false "/usr/sbin/update-rc.d"
        "/usr/sbin/update-rc.d").initContents.toList.contains '^' = false ∧
    (∃ e, newSystemvController serviceNamePlaceholder
        (ControllerConfig.mk "mydaemon" "My daemon." "" [] "" ManualStart false)
        (Except.ok "/sbin/chkconfig") (Except.ok "/usr/sbin/update-rc.d")
        "/sbin/service" false = Except.error e) := by
  refine ⟨by rfl, ?_, ?_⟩
  · exact systemv_render_rejects_leftover_placeholders.1 serviceNamePlaceholder
      (ControllerConfig.mk "mydaemon" "My daemon." "/usr/bin/mydaemon" []
        "" ManualStart false)
      (Except.ok "/sbin/chkconfig") (Except.ok "/usr/sbin/update-rc.d")
      "/sbin/service" false
      (SysvController.mk "/sbin/service" "mydaemon" "mydaemon"
        "/etc/init.d/mydaemon" ManualStart false "/usr/sbin/update-rc.d"
        "/usr/sbin/update-rc.d") (by rfl)
  · exact systemv_render_rejects_leftover_placeholders.2 serviceNamePlaceholder
      (ControllerConfig.mk "mydaemon" "My daemon." "" [] "" ManualStart false)
      (Except.ok "/sbin/chkconfig") (Except.ok "/usr/sbin/update-rc.d")
      "/sbin/service" false rfl

/-- The Go dynamic error values relevant to Execute: a plain error built
by fmt.Errorf (an errorString), or the CommandError type from errors.go
(reason, command, isUnknown). -/
inductive GoErr
  | errorString (msg : String)
  | commandError (reason : String) (command : String) (isUnknown : Bool)
deriving DecidableEq, Repr

/-- The error message: CommandError.Error from errors.go for the
CommandError kind, the stored message for a plain error. -/
def GoErr.message : GoErr → String
  | GoErr.errorString m => m
  | GoErr.commandError reason cmd isUnk =>
    if isUnk then "Unknown command - " ++ singleQuote ++ cmd ++ singleQuote
    else reason

/-- True exactly for the CommandError dynamic type — the kind a type
assertion (or errors.As) against CommandError accepts. -/
def GoErr.isCommandErrorKind : GoErr → Bool
  | GoErr.errorString _ => false
  | GoErr.commandError _ _ _ => true

/-- The Controller methods Execute can dispatch to. -/
inductive CtrlCall
  | status
  | start
  | stop
  | install
  | uninstall
deriving DecidableEq, Repr

/-- A Controller as Execute sees it: the outcome each method would
produce when called. -/
structure CtrlBehavior where
  statusRes : Except GoErr Status
  startRes : Option GoErr
  stopRes : Option GoErr
  installRes : Option GoErr
  uninstallRes : Option GoErr
deriving Repr

/-- Execute from common.go (the control/common.go variant is identical):
dispatch on the command token, wrap method failures in fmt.Errorf
messages, return the status string for GetStatus and an empty output
otherwise, and report an unknown token as a fmt.Errorf error. The result
also records which Controller methods were called. -/
def Execute (command : Command) (controller : CtrlBehavior) :
    List CtrlCall × String × Option GoErr :=
  if command = GetStatus then
    match controller.statusRes with
    | Except.error e =>
      ([CtrlCall.status], "",
        some (GoErr.errorString ("failed to get daemon status - " ++ e.message)))
    | Except.ok status => ([CtrlCall.status], status, none)
  else if command = Start then
    match controller.startRes with
    | some e =>
      ([CtrlCall.start], "",
        some (GoErr.errorString ("failed to start daemon - " ++ e.message)))
    | none => ([CtrlCall.start], "", none)
  else if command = Stop then
    match controller.stopRes with
    | some e =>
      ([CtrlCall.stop], "",
        some (GoErr.errorString ("failed to stop daemon - " ++ e.message)))
    | none => ([CtrlCall.stop], "", none)
  else if command = Install then
    match controller.installRes with
    | some e =>
      ([CtrlCall.install], "",
        some (GoErr.errorString ("failed to install daemon - " ++ e.message)))
    | none => ([CtrlCall.install], "", none)
  else if command = Uninstall then
    match controller.uninstallRes with
    | some e =>
      ([CtrlCall.uninstall], "",
        some (GoErr.errorString ("failed to uninstall daemon - " ++ e.message)))
    | none => ([CtrlCall.uninstall], "", none)
  else
    ([], "",
      some (GoErr.errorString
        ("unknown daemon command " ++ singleQuote ++ command ++ singleQuote)))

/-- C9 counterexample: at the concrete unknown token "frobnicate" and a
controller whose Start fails, Execute returns a plain errorString for the
unknown command — the same error kind as the execution failure returned
for "start" (the distinct CommandError kind from errors.go is not used),
so the unknown-command error is not of a distinct kind. -/
theorem execute_unknown_command_same_error_kind :
    (Execute "frobnicate"
        (CtrlBehavior.mk (Except.ok Running)
          (some (GoErr.errorString "start failure")) none none none)).2.2 =
      some (GoErr.errorString
        ("unknown daemon command " ++ singleQuote ++ "frobnicate" ++ singleQuote)) ∧
    (Execute Start
        (CtrlBehavior.mk (Except.ok Running)
          (some (GoErr.errorString "start failure")) none none none)).2.2 =
      some (GoErr.errorString "failed to start daemon - start failure") ∧
    ((Execute "frobnicate"
        (CtrlBehavior.mk (Except.ok Running)
          (some (GoErr.errorString "start failure")) none none none)).2.2.map
      GoErr.isCommandErrorKind) =
    ((Execute Start
        (CtrlBehavior.mk (Except.ok Running)
          (some (GoErr.errorString "start failure")) none none none)).2.2.map
      GoErr.isCommandErrorKind) := by
  refine ⟨by rfl, by rfl, by rfl⟩

/-- C9 (amended): Execute dispatches exactly the corresponding Controller
method for each of the five commands, returning a non-empty output only
for GetStatus (the other four return an empty output) and wrapping
failures with a message identifying the command; for every token outside
the enum, no Controller method is called and Execute returns the
unknown-daemon-command error — a plain formatted error of the same kind
as execution failures, distinguished only by its message. -/
theorem execute_dispatch (c : CtrlBehavior) :
    (∀ st, c.statusRes = Except.ok st →
      Execute GetStatus c = ([CtrlCall.status], st, none)) ∧
    (∀ e, c.statusRes = Except.error e →
      Execute GetStatus c = ([CtrlCall.status], "",
        some (GoErr.errorString ("failed to get daemon status - " ++ e.message)))) ∧
    (c.startRes = none → Execute Start c = ([CtrlCall.start], "", none)) ∧
    (∀ e, c.startRes = some e →
      Execute Start c = ([CtrlCall.start], "",
        some (GoErr.errorString ("failed to start daemon - " ++ e.message)))) ∧
    (c.stopRes = none → Execute Stop c = ([CtrlCall.stop], "", none)) ∧
    (∀ e, c.stopRes = some e →
      Execute Stop c = ([CtrlCall.stop], "",
        some (GoErr.errorString ("failed to stop daemon - " ++ e.message)))) ∧
    (c.installRes = none → Execute Install c = ([CtrlCall.install], "", none)) ∧
    (∀ e, c.installRes = some e →
      Execute Install c = ([CtrlCall.install], "",
        some (GoErr.errorString ("failed to install daemon - " ++ e.message)))) ∧
    (c.uninstallRes = none →
      Execute Uninstall c = ([CtrlCall.uninstall], "", none)) ∧
    (∀ e, c.uninstallRes = some e →
      Execute Uninstall c = ([CtrlCall.uninstall], "",
        some (GoErr.errorString ("failed to uninstall daemon - " ++ e.message)))) ∧
    (∀ cmd : Command, cmd ≠ GetStatus → cmd ≠ Start → cmd ≠ Stop →
      cmd ≠ Install → cmd ≠ Uninstall →
      Execute cmd c = ([], "",
        some (GoErr.errorString
          ("unknown daemon command " ++ singleQuote ++ cmd ++ singleQuote)))) := by
  refine ⟨?_, ?_, ?_, ?_, ?_, ?_, ?_, ?_, ?_, ?_, ?_⟩ <;>
    first
    | (intro cmd h1 h2 h3 h4 h5
       simp only [GetStatus, Start, Stop, Install, Uninstall] at h1 h2 h3 h4 h5
       simp [Execute, GetStatus, Start, Stop, Install, Uninstall,
         h1, h2, h3, h4, h5])
    | (intro e h
       simp [Execute, GetStatus, Start, Stop, Install, Uninstall, h])
    | (intro h
       simp [Execute, GetStatus, Start, Stop, Install, Uninstall, h])

/-- Witness for C9 (amended) at concrete inputs: GetStatus on a running
controller yields the status string with no other output, and the token
"frobnicate" yields the unknown-command error without any method call. -/
theorem execute_dispatch_witness :
    Execute GetStatus
        (CtrlBehavior.mk (Except.ok Running) none none none none) =
      ([CtrlCall.status], Running, none) ∧
    Execute "frobnicate"
        (CtrlBehavior.mk (Except.ok Running) none none none none) =
      ([], "",
        some (GoErr.errorString
          ("unknown daemon command " ++ singleQuote ++ "frobnicate" ++ singleQuote))) := by
  constructor
  · exact (execute_dispatch
      (CtrlBehavior.mk (Except.ok Running) none none none none)).1 Running rfl
  · exact (execute_dispatch
      (CtrlBehavior.mk (Except.ok Running) none none none none)).2.2.2.2.2.2.2.2.2.2
      "frobnicate" (by decide) (by decide) (by decide) (by decide) (by decide)

end Cyberdaemon
